import Mathlib

/-!
Verification of the User Data Sync orchestrator
(`UserDataSyncService` in
`src/vs/platform/userDataSync/electron-browser/userDataAutoSyncService.ts`).

The orchestrator coordinates four per-resource synchronisers (settings,
keybindings, global state, extensions) into multi-resource synchronization
rounds, tracks aggregate status and conflicts, and persists session and
timestamp bookkeeping.  The synchronisers themselves and the sync store
client are external collaborators (spec §4.2: contract only); they are
modelled as records of observed state and prescribed outcomes.

Stateful methods are embedded as functions from an explicit service state
(plus the observed synchroniser states and fetched manifests) to a new
service state; event-emitter firings and collaborator invocations are
recorded in append-only event lists inside the state, and a thrown
exception is returned as an `Option SyncError` (`some` = the method threw).
-/

/-- The `SyncStatus` enum from `vs/platform/userDataSync/common/userDataSync`. -/
inductive SyncStatus
  | Uninitialized
  | Idle
  | Syncing
  | HasConflicts
deriving DecidableEq, Repr, Fintype

/-- The `SyncSource` values of the four synchronisers the orchestrator owns
(settings, keybindings, global state, extensions). -/
inductive SyncSource
  | Settings
  | Keybindings
  | GlobalState
  | Extensions
deriving DecidableEq, Repr, Fintype

/-- The `UserDataSyncErrorCode` values used by the orchestrator, plus
`Unknown` for wrapped plain errors and `Unauthorized` as a representative
further store-error code. -/
inductive SyncErrorCode
  | TooLarge
  | TurnedOff
  | SessionExpired
  | Unauthorized
  | Unknown
deriving DecidableEq, Repr

/-- Modelled from the spec: the error hierarchy of
`vs/platform/userDataSync/common/userDataSync` (not under src/).
`storeError` is a `UserDataSyncStoreError` (the `instanceof` test in
`handleSyncError` matches exactly these), `syncError` is a plain
`UserDataSyncError`, and `jsError` is an ordinary JavaScript `Error`. -/
inductive SyncError
  | storeError (code : SyncErrorCode) (msg : String)
  | syncError (code : SyncErrorCode) (msg : String)
  | jsError (msg : String)
deriving DecidableEq, Repr

namespace SyncError

/-- Modelled from the spec: `UserDataSyncError.toUserDataSyncError` —
synchroniser-specific error values pass through unchanged, an ordinary
error is wrapped with an `Unknown` code. -/
def toUserDataSyncError : SyncError → SyncError
  | jsError msg => syncError SyncErrorCode.Unknown msg
  | e => e

/-- Whether an error is a `UserDataSyncStoreError`
(the `instanceof UserDataSyncStoreError` test). -/
def isStoreError : SyncError → Bool
  | storeError _ _ => true
  | _ => false

end SyncError

/-- The `new Error('Not enabled')` thrown by `checkEnablement`. -/
def notEnabledError : SyncError := SyncError.jsError "Not enabled"

/-- The `UserDataSyncError` with code `TurnedOff` thrown by `sync()`. -/
def turnedOffError : SyncError :=
  SyncError.syncError SyncErrorCode.TurnedOff
    "Cannot sync because syncing is turned off in the cloud"

/-- The `UserDataSyncError` with code `SessionExpired` thrown by `sync()`. -/
def sessionExpiredError : SyncError :=
  SyncError.syncError SyncErrorCode.SessionExpired
    "Cannot sync because current session is expired"

/-- The remote manifest (`{ session, latest }`); `latest` maps resource
keys to version refs and may be absent. -/
structure Manifest where
  session : String
  latest : Option (List (String × String))
deriving DecidableEq, Repr

/-- Modelled from the spec: a synchroniser is an external collaborator
(spec §4.2, contract only; the concrete synchronisers are not under src/).
Its currently observed state (`status`, `hasPreviouslySynced`,
`hasLocalData`) and the outcome each of its operations would produce when
invoked (`none` = the returned promise resolves, `some e` = it rejects
with `e`) are modelled as plain record fields. -/
structure Synchroniser where
  source : SyncSource
  resourceKey : String
  status : SyncStatus
  hasPreviouslySynced : Bool
  hasLocalData : Bool
  pullResult : Option SyncError
  pushResult : Option SyncError
  syncResult : Option SyncError
  stopResult : Option SyncError
  acceptResult : Option SyncError
  resetLocalResult : Option SyncError
  remoteContent : Option String
  resolvedContent : Option String
deriving DecidableEq, Repr

/-- Modelled from the spec: `equals` from `vs/base/common/arrays` (not
under src/) — two arrays are equal when they have the same length and
equal items at each index. -/
def arraysEquals (one other : List SyncSource) : Bool :=
  one.length == other.length &&
    (List.zip one other).all fun p => p.1 == p.2

/-- The mutable state of a `UserDataSyncService` instance together with
its persisted storage keys and append-only logs of every event-emitter
firing and collaborator invocation it performs. -/
structure UserDataSyncService where
  /-- The `userDataSyncStoreService.userDataSyncStore` is configured. -/
  storeConfigured : Bool
  /-- The `this._status`. -/
  status : SyncStatus
  /-- The `this._conflictsSources`. -/
  conflictsSources : List SyncSource
  /-- The `this._syncErrors`. -/
  syncErrors : List (SyncSource × SyncError)
  /-- The `this._lastSyncTime`. -/
  lastSyncTime : Option Nat
  /-- storage key `sync.sessionId` (global scope). -/
  storedSessionId : Option String
  /-- storage key `sync.lastSyncTime` (global scope). -/
  storedLastSyncTime : Option Nat
  /-- firings of `_onDidChangeStatus`. -/
  statusEvents : List SyncStatus
  /-- firings of `_onDidChangeConflicts`. -/
  conflictsEvents : List (List SyncSource)
  /-- firings of `_onDidChangeLastSyncTime`. -/
  lastSyncTimeEvents : List Nat
  /-- firings of `_onSyncErrors`. -/
  syncErrorsEvents : List (List (SyncSource × SyncError))
  /-- The `logService.error` calls (tagged with a source when the message is
  the `source: message` form). -/
  logEvents : List (Option SyncSource × SyncError)
  /-- The `telemetryService.publicLog2('sync/errorTooLarge', …)` calls. -/
  telemetryEvents : List SyncSource
  /-- The `synchroniser.sync(ref)` invocations, with the version ref passed. -/
  syncCalls : List (SyncSource × Option String)
  /-- The `synchroniser.pull()` invocations. -/
  pullCalls : List SyncSource
  /-- The `synchroniser.push()` invocations. -/
  pushCalls : List SyncSource
  /-- The `synchroniser.stop()` invocations. -/
  stopCalls : List SyncSource
  /-- The `synchroniser.accept(content)` invocations. -/
  acceptCalls : List (SyncSource × String)
  /-- The `synchroniser.resetLocal()` invocations. -/
  resetLocalCalls : List SyncSource
  /-- The `userDataSyncStoreService.clear()` invocations. -/
  storeClearCalls : Nat
deriving DecidableEq, Repr

namespace UserDataSyncService

/-- The `computeStatus()`: `Uninitialized` when the store is not configured,
else `HasConflicts` when some synchroniser has conflicts, else `Syncing`
when some synchroniser is syncing, else `Idle`. -/
def computeStatus (storeConfigured : Bool) (syncs : List Synchroniser) :
    SyncStatus :=
  if !storeConfigured then SyncStatus.Uninitialized
  else if syncs.any fun s => s.status == SyncStatus.HasConflicts then
    SyncStatus.HasConflicts
  else if syncs.any fun s => s.status == SyncStatus.Syncing then
    SyncStatus.Syncing
  else SyncStatus.Idle

/-- The `computeConflictsSources()`: sources of the synchronisers whose status
is `HasConflicts`, in synchroniser-registration order. -/
def computeConflictsSources (syncs : List Synchroniser) : List SyncSource :=
  (syncs.filter fun s => s.status == SyncStatus.HasConflicts).map
    fun s => s.source

/-- The `hasPreviouslySynced()`: some synchroniser has previously synced. -/
def hasPreviouslySynced (syncs : List Synchroniser) : Bool :=
  syncs.any fun s => s.hasPreviouslySynced

/-- The `hasLocalData()`: some synchroniser has local data. -/
def hasLocalData (syncs : List Synchroniser) : Bool :=
  syncs.any fun s => s.hasLocalData

/-- The `updateLastSyncTime()`: when the aggregate status is `Idle`, set
`_lastSyncTime` to the current time, persist it and fire
`_onDidChangeLastSyncTime`; otherwise do nothing. -/
def updateLastSyncTime (now : Nat) (st : UserDataSyncService) :
    UserDataSyncService :=
  if st.status = SyncStatus.Idle then
    { st with
      lastSyncTime := some now
      storedLastSyncTime := some now
      lastSyncTimeEvents := st.lastSyncTimeEvents ++ [now] }
  else st

/-- The `setStatus(status)`: when the status actually changes, store it, fire
`_onDidChangeStatus`, and — when the old status was `HasConflicts` — call
`updateLastSyncTime`. -/
def setStatus (now : Nat) (status : SyncStatus) (st : UserDataSyncService) :
    UserDataSyncService :=
  let oldStatus := st.status
  if st.status ≠ status then
    let st := { st with
      status := status
      statusEvents := st.statusEvents ++ [status] }
    if oldStatus = SyncStatus.HasConflicts then updateLastSyncTime now st
    else st
  else st

/-- The `updateStatus()`: recompute the conflict-source list, firing
`_onDidChangeConflicts` when it differs (by `arraysEquals`) from the
stored one, then recompute and set the aggregate status. -/
def updateStatus (now : Nat) (syncs : List Synchroniser)
    (st : UserDataSyncService) : UserDataSyncService :=
  let conflictsSources := computeConflictsSources syncs
  let st :=
    if !arraysEquals st.conflictsSources conflictsSources then
      { st with
        conflictsSources := computeConflictsSources syncs
        conflictsEvents := st.conflictsEvents ++ [conflictsSources] }
    else st
  let status := computeStatus st.storeConfigured syncs
  setStatus now status st

/-- The `handleSyncError(e, source)`: a `UserDataSyncStoreError` is re-thrown
(after a telemetry event when its code is `TooLarge`); any other error is
logged (message, then `source: message`) and swallowed.  Returns the new
state and the re-thrown error, if any. -/
def handleSyncError (e : SyncError) (source : SyncSource)
    (st : UserDataSyncService) : UserDataSyncService × Option SyncError :=
  match e with
  | SyncError.storeError code msg =>
    let st :=
      if code = SyncErrorCode.TooLarge then
        { st with telemetryEvents := st.telemetryEvents ++ [source] }
      else st
    (st, some (SyncError.storeError code msg))
  | e =>
    ({ st with logEvents := st.logEvents ++ [(none, e), (some source, e)] },
      none)

/-- The version ref passed to `synchroniser.sync`:
`manifest && manifest.latest ? manifest.latest[synchroniser.resourceKey]
: undefined`. -/
def syncArg (manifest : Option Manifest) (s : Synchroniser) :
    Option String :=
  match manifest with
  | some m =>
    match m.latest with
    | some latest => latest.lookup s.resourceKey
    | none => none
  | none => none

/-- The per-synchroniser loop of `sync()`: invoke each synchroniser's
`sync`; a failure goes through `handleSyncError` (which re-throws store
errors, aborting the loop) and, when swallowed, is appended to
`_syncErrors`. -/
def syncLoop (manifest : Option Manifest) (syncs : List Synchroniser)
    (st : UserDataSyncService) : UserDataSyncService × Option SyncError :=
  match syncs with
  | [] => (st, none)
  | s :: rest =>
    let st := { st with syncCalls := st.syncCalls ++ [(s.source, syncArg manifest s)] }
    match s.syncResult with
    | none => syncLoop manifest rest st
    | some e =>
      let q := handleSyncError e s.source st
      match q.2 with
      | some err => (q.1, some err)
      | none =>
        syncLoop manifest rest
          { q.1 with
            syncErrors := q.1.syncErrors ++ [(s.source, e.toUserDataSyncError)] }

/-- The `sessionId && manifest && sessionId !== manifest.session` test of
`sync()`.  JavaScript truthiness: a stored session id that is the empty
string is falsy, so it does not count as a persisted session id and the
check is skipped. -/
def sessionMismatch (sessionId : Option String)
    (manifest : Option Manifest) : Bool :=
  match sessionId, manifest with
  | some sid, some m => sid != "" && sid != m.session
  | _, _ => false

/-- The `try` block of `sync()` (after `checkEnablement` and the reset of
`_syncErrors`): status bump to `Syncing`, manifest fetch, `TurnedOff` and
`SessionExpired` checks, the per-synchroniser loop, manifest re-fetch,
session-id persistence, and `updateLastSyncTime`.  `manifest1` is what the
first `userDataSyncStoreService.manifest()` call returns, `manifest2` what
a re-fetch would return. -/
def syncTryBody (syncs : List Synchroniser)
    (manifest1 manifest2 : Option Manifest) (now : Nat)
    (st : UserDataSyncService) : UserDataSyncService × Option SyncError :=
  let st :=
    if st.status ≠ SyncStatus.HasConflicts then
      setStatus now SyncStatus.Syncing st
    else st
  if manifest1 = none ∧ hasPreviouslySynced syncs then
    (st, some turnedOffError)
  else
    let sessionId := st.storedSessionId
    if sessionMismatch sessionId manifest1 then (st, some sessionExpiredError)
    else
      let p := syncLoop manifest1 syncs st
      match p.2 with
      | some err => (p.1, some err)
      | none =>
        let st := p.1
        let manifest := if manifest1 = none then manifest2 else manifest1
        let st :=
          match manifest with
          | some m =>
            if some m.session ≠ sessionId then
              { st with storedSessionId := some m.session }
            else st
          | none => st
        (updateLastSyncTime now st, none)

/-- The `sync()`: `checkEnablement`, reset `_syncErrors`, run the `try` body,
and in a `finally`-equivalent block recompute the status (from the
synchroniser states observed at that point, `finalSyncs`) and fire
`_onSyncErrors` with the accumulated round errors. -/
def sync (syncs : List Synchroniser)
    (manifest1 manifest2 : Option Manifest) (now now2 : Nat)
    (finalSyncs : List Synchroniser) (st : UserDataSyncService) :
    UserDataSyncService × Option SyncError :=
  if !st.storeConfigured then (st, some notEnabledError)
  else
    let p := syncTryBody syncs manifest1 manifest2 now
      { st with syncErrors := [] }
    let st2 := updateStatus now2 finalSyncs p.1
    ({ st2 with syncErrorsEvents := st2.syncErrorsEvents ++ [st2.syncErrors] },
      p.2)

/-- The per-synchroniser loop of `pull()`. -/
def pullLoop (syncs : List Synchroniser) (st : UserDataSyncService) :
    UserDataSyncService × Option SyncError :=
  match syncs with
  | [] => (st, none)
  | s :: rest =>
    let st := { st with pullCalls := st.pullCalls ++ [s.source] }
    match s.pullResult with
    | none => pullLoop rest st
    | some e =>
      let q := handleSyncError e s.source st
      match q.2 with
      | some err => (q.1, some err)
      | none => pullLoop rest q.1

/-- The `pull()`: `checkEnablement`, then each synchroniser's `pull` (failures
via `handleSyncError`), then `updateLastSyncTime`. -/
def pull (syncs : List Synchroniser) (now : Nat)
    (st : UserDataSyncService) : UserDataSyncService × Option SyncError :=
  if !st.storeConfigured then (st, some notEnabledError)
  else
    let p := pullLoop syncs st
    match p.2 with
    | some err => (p.1, some err)
    | none => (updateLastSyncTime now p.1, none)

/-- The per-synchroniser loop of `push()`. -/
def pushLoop (syncs : List Synchroniser) (st : UserDataSyncService) :
    UserDataSyncService × Option SyncError :=
  match syncs with
  | [] => (st, none)
  | s :: rest =>
    let st := { st with pushCalls := st.pushCalls ++ [s.source] }
    match s.pushResult with
    | none => pushLoop rest st
    | some e =>
      let q := handleSyncError e s.source st
      match q.2 with
      | some err => (q.1, some err)
      | none => pushLoop rest q.1

/-- The `push()`: `checkEnablement`, then each synchroniser's `push` (failures
via `handleSyncError`), then `updateLastSyncTime`. -/
def push (syncs : List Synchroniser) (now : Nat)
    (st : UserDataSyncService) : UserDataSyncService × Option SyncError :=
  if !st.storeConfigured then (st, some notEnabledError)
  else
    let p := pushLoop syncs st
    match p.2 with
    | some err => (p.1, some err)
    | none => (updateLastSyncTime now p.1, none)

/-- The per-synchroniser loop of `stop()`: stop each non-`Idle`
synchroniser, logging (never propagating) individual failures. -/
def stopLoop (syncs : List Synchroniser) (st : UserDataSyncService) :
    UserDataSyncService :=
  match syncs with
  | [] => st
  | s :: rest =>
    if s.status ≠ SyncStatus.Idle then
      let st := { st with stopCalls := st.stopCalls ++ [s.source] }
      match s.stopResult with
      | none => stopLoop rest st
      | some e =>
        stopLoop rest { st with logEvents := st.logEvents ++ [(none, e)] }
    else stopLoop rest st

/-- The `stop()`: `checkEnablement`; no-op when the aggregate status is
`Idle`; otherwise stop every non-`Idle` synchroniser. -/
def stop (syncs : List Synchroniser) (st : UserDataSyncService) :
    UserDataSyncService × Option SyncError :=
  if !st.storeConfigured then (st, some notEnabledError)
  else if st.status = SyncStatus.Idle then (st, none)
  else (stopLoop syncs st, none)

/-- The `getSynchroniser(source)`: the first synchroniser with the given
source (`undefined`, here `none`, when there is none). -/
def getSynchroniser (syncs : List Synchroniser) (source : SyncSource) :
    Option Synchroniser :=
  (syncs.filter fun s => s.source == source).head?

/-- The `accept(source, content)`: `checkEnablement`, then delegate to the
matching synchroniser (accessing `undefined` throws when none matches). -/
def accept (syncs : List Synchroniser) (source : SyncSource)
    (content : String) (st : UserDataSyncService) :
    UserDataSyncService × Option SyncError :=
  if !st.storeConfigured then (st, some notEnabledError)
  else
    match getSynchroniser syncs source with
    | some s =>
      let st := { st with acceptCalls := st.acceptCalls ++ [(s.source, content)] }
      (st, s.acceptResult)
    | none => (st, some (SyncError.jsError "undefined is not an object"))

/-- The `getRemoteContent(source, preview)`: `checkEnablement`, then the
matching synchroniser's remote content, or `null` when none matches. -/
def getRemoteContent (syncs : List Synchroniser) (source : SyncSource)
    (preview : Bool) (st : UserDataSyncService) :
    UserDataSyncService × Except SyncError (Option String) :=
  if !st.storeConfigured then (st, Except.error notEnabledError)
  else
    match (syncs.filter fun s => s.source == source).head? with
    | some s => (st, Except.ok s.remoteContent)
    | none => (st, Except.ok none)

/-- The `resolveContent(resourceKey, ref)`: the first synchroniser with the
given resource key resolves the ref; `null` when none matches.  (There is
no `checkEnablement` call in this method.) -/
def resolveContent (syncs : List Synchroniser) (resourceKey : String)
    (ref : String) (st : UserDataSyncService) :
    UserDataSyncService × Except SyncError (Option String) :=
  match (syncs.filter fun s => s.resourceKey == resourceKey).head? with
  | some s => (st, Except.ok s.resolvedContent)
  | none => (st, Except.ok none)

/-- The `isFirstTimeSyncWithMerge()`: `checkEnablement`; false when the
manifest is absent; false when some synchroniser has previously synced;
otherwise whether some synchroniser has local data. -/
def isFirstTimeSyncWithMerge (syncs : List Synchroniser)
    (manifest : Option Manifest) (st : UserDataSyncService) :
    UserDataSyncService × Except SyncError Bool :=
  if !st.storeConfigured then (st, Except.error notEnabledError)
  else if manifest = none then (st, Except.ok false)
  else if hasPreviouslySynced syncs then (st, Except.ok false)
  else (st, Except.ok (hasLocalData syncs))

/-- The `resetRemote()`: `checkEnablement`, then clear the remote store,
logging (never propagating) a failure.  `clearResult` is the outcome the
store client's `clear()` call would produce. -/
def resetRemote (clearResult : Option SyncError)
    (st : UserDataSyncService) : UserDataSyncService × Option SyncError :=
  if !st.storeConfigured then (st, some notEnabledError)
  else
    let st := { st with storeClearCalls := st.storeClearCalls + 1 }
    match clearResult with
    | none => (st, none)
    | some e => ({ st with logEvents := st.logEvents ++ [(none, e)] }, none)

/-- The per-synchroniser loop of `resetLocal()`: each synchroniser's
`resetLocal`, logging (never propagating) individual failures. -/
def resetLocalLoop (syncs : List Synchroniser)
    (st : UserDataSyncService) : UserDataSyncService :=
  match syncs with
  | [] => st
  | s :: rest =>
    let st := { st with resetLocalCalls := st.resetLocalCalls ++ [s.source] }
    match s.resetLocalResult with
    | none => resetLocalLoop rest st
    | some e =>
      resetLocalLoop rest
        { st with logEvents := st.logEvents ++ [(some s.source, e), (none, e)] }

/-- The `resetLocal()`: `checkEnablement`, remove the persisted session id and
last-sync-time keys, then reset each synchroniser locally. -/
def resetLocal (syncs : List Synchroniser) (st : UserDataSyncService) :
    UserDataSyncService × Option SyncError :=
  if !st.storeConfigured then (st, some notEnabledError)
  else
    let st := { st with storedSessionId := none, storedLastSyncTime := none }
    (resetLocalLoop syncs st, none)

/-- The `reset()`: `checkEnablement`, then `resetRemote`, then `resetLocal`. -/
def reset (syncs : List Synchroniser) (clearResult : Option SyncError)
    (st : UserDataSyncService) : UserDataSyncService × Option SyncError :=
  if !st.storeConfigured then (st, some notEnabledError)
  else
    let p := resetRemote clearResult st
    match p.2 with
    | some err => (p.1, some err)
    | none =>
      let q := resetLocal syncs p.1
      match q.2 with
      | some err => (q.1, some err)
      | none => (q.1, none)

end UserDataSyncService

/-- A synchroniser with the given source, resource key and status, all
whose operations succeed and that reports no prior sync and no local
data. -/
def mkSynchroniser (source : SyncSource) (resourceKey : String)
    (status : SyncStatus) : Synchroniser where
  source := source
  resourceKey := resourceKey
  status := status
  hasPreviouslySynced := false
  hasLocalData := false
  pullResult := none
  pushResult := none
  syncResult := none
  stopResult := none
  acceptResult := none
  resetLocalResult := none
  remoteContent := none
  resolvedContent := none

/-- The orchestrator's fixed synchroniser registration order (settings,
keybindings, global state, extensions), with the four given statuses. -/
def mkSyncs (a b c d : SyncStatus) : List Synchroniser :=
  [mkSynchroniser SyncSource.Settings "settings" a,
   mkSynchroniser SyncSource.Keybindings "keybindings" b,
   mkSynchroniser SyncSource.GlobalState "globalState" c,
   mkSynchroniser SyncSource.Extensions "extensions" d]

/-- A freshly constructed service state: given store configuration,
`Uninitialized` status, no conflicts, no persisted keys, empty event
logs. -/
def initialService (storeConfigured : Bool) : UserDataSyncService where
  storeConfigured := storeConfigured
  status := SyncStatus.Uninitialized
  conflictsSources := []
  syncErrors := []
  lastSyncTime := none
  storedSessionId := none
  storedLastSyncTime := none
  statusEvents := []
  conflictsEvents := []
  lastSyncTimeEvents := []
  syncErrorsEvents := []
  logEvents := []
  telemetryEvents := []
  syncCalls := []
  pullCalls := []
  pushCalls := []
  stopCalls := []
  acceptCalls := []
  resetLocalCalls := []
  storeClearCalls := 0

/-- A service state that is enabled and idle (as after a completed
round). -/
def idleService : UserDataSyncService :=
  { initialService true with status := SyncStatus.Idle }

/-- Four idle synchronisers whose second one (keybindings) rejects its
`sync` call with a store error whose code is not `TooLarge`. -/
def storeErrorAtSecond : List Synchroniser :=
  [mkSynchroniser SyncSource.Settings "settings" SyncStatus.Idle,
   { mkSynchroniser SyncSource.Keybindings "keybindings" SyncStatus.Idle with
      syncResult :=
        some (SyncError.storeError SyncErrorCode.Unauthorized "boom") },
   mkSynchroniser SyncSource.GlobalState "globalState" SyncStatus.Idle,
   mkSynchroniser SyncSource.Extensions "extensions" SyncStatus.Idle]

/-- Four idle synchronisers whose second one (keybindings) rejects its
`sync` call with a plain (non-store) error. -/
def plainErrorAtSecond : List Synchroniser :=
  [mkSynchroniser SyncSource.Settings "settings" SyncStatus.Idle,
   { mkSynchroniser SyncSource.Keybindings "keybindings" SyncStatus.Idle with
      syncResult := some (SyncError.jsError "disk failure") },
   mkSynchroniser SyncSource.GlobalState "globalState" SyncStatus.Idle,
   mkSynchroniser SyncSource.Extensions "extensions" SyncStatus.Idle]

/-- The aggregate-status rule as the spec states it: `Uninitialized` if
the store is unconfigured, else `HasConflicts` if any member status has
conflicts, else `Syncing` if any member status is syncing, else `Idle`. -/
def specAggregateStatus (storeConfigured : Bool)
    (statuses : List SyncStatus) : SyncStatus :=
  if storeConfigured = false then SyncStatus.Uninitialized
  else if SyncStatus.HasConflicts ∈ statuses then SyncStatus.HasConflicts
  else if SyncStatus.Syncing ∈ statuses then SyncStatus.Syncing
  else SyncStatus.Idle

/-- The conflict-source list produced by the fixed four-synchroniser
registration order, as a function of which of the four members currently
has conflicts. -/
def conflictFlags (p1 p2 p3 p4 : Bool) : List SyncSource :=
  (if p1 then [SyncSource.Settings] else []) ++
  (if p2 then [SyncSource.Keybindings] else []) ++
  (if p3 then [SyncSource.GlobalState] else []) ++
  (if p4 then [SyncSource.Extensions] else [])

/-- The error entries `sync()`'s loop captures into `_syncErrors` from a
run of synchronisers none of which throws a store error. -/
def capturedErrors : List Synchroniser → List (SyncSource × SyncError)
  | [] => []
  | s :: rest =>
    match s.syncResult with
    | some e => (s.source, e.toUserDataSyncError) :: capturedErrors rest
    | none => capturedErrors rest

/-- The log entries `handleSyncError` writes for a run of synchronisers
none of which throws a store error, with the failing operation's outcome
selected by `f`. -/
def loggedErrors (f : Synchroniser → Option SyncError) :
    List Synchroniser → List (Option SyncSource × SyncError)
  | [] => []
  | s :: rest =>
    match f s with
    | some e => (none, e) :: (some s.source, e) :: loggedErrors f rest
    | none => loggedErrors f rest

/-- The synchronisers of `l` fail, in the operation selected by `f`, only
with errors that are not store errors (so `handleSyncError` swallows
them). -/
def NonAborting (f : Synchroniser → Option SyncError)
    (l : List Synchroniser) : Prop :=
  ∀ s ∈ l, ∀ e, f s = some e → e.isStoreError = false

namespace UserDataSyncService

/-! Field-preservation lemmas for the state helpers. -/

theorem updateLastSyncTime_def (now : Nat) (st : UserDataSyncService) :
    updateLastSyncTime now st =
      if st.status = SyncStatus.Idle then
        { st with
          lastSyncTime := some now
          storedLastSyncTime := some now
          lastSyncTimeEvents := st.lastSyncTimeEvents ++ [now] }
      else st := rfl

end UserDataSyncService


namespace UserDataSyncService

@[simp] theorem updateLastSyncTime_status (now : Nat)
    (st : UserDataSyncService) :
    (updateLastSyncTime now st).status = st.status := by
  unfold updateLastSyncTime; split <;> rfl

@[simp] theorem updateLastSyncTime_storeConfigured (now : Nat)
    (st : UserDataSyncService) :
    (updateLastSyncTime now st).storeConfigured = st.storeConfigured := by
  unfold updateLastSyncTime; split <;> rfl

@[simp] theorem updateLastSyncTime_conflictsSources (now : Nat)
    (st : UserDataSyncService) :
    (updateLastSyncTime now st).conflictsSources = st.conflictsSources := by
  unfold updateLastSyncTime; split <;> rfl

@[simp] theorem updateLastSyncTime_conflictsEvents (now : Nat)
    (st : UserDataSyncService) :
    (updateLastSyncTime now st).conflictsEvents = st.conflictsEvents := by
  unfold updateLastSyncTime; split <;> rfl

@[simp] theorem updateLastSyncTime_statusEvents (now : Nat)
    (st : UserDataSyncService) :
    (updateLastSyncTime now st).statusEvents = st.statusEvents := by
  unfold updateLastSyncTime; split <;> rfl

@[simp] theorem updateLastSyncTime_syncErrors (now : Nat)
    (st : UserDataSyncService) :
    (updateLastSyncTime now st).syncErrors = st.syncErrors := by
  unfold updateLastSyncTime; split <;> rfl

@[simp] theorem updateLastSyncTime_syncErrorsEvents (now : Nat)
    (st : UserDataSyncService) :
    (updateLastSyncTime now st).syncErrorsEvents = st.syncErrorsEvents := by
  unfold updateLastSyncTime; split <;> rfl

@[simp] theorem updateLastSyncTime_syncCalls (now : Nat)
    (st : UserDataSyncService) :
    (updateLastSyncTime now st).syncCalls = st.syncCalls := by
  unfold updateLastSyncTime; split <;> rfl

@[simp] theorem updateLastSyncTime_pullCalls (now : Nat)
    (st : UserDataSyncService) :
    (updateLastSyncTime now st).pullCalls = st.pullCalls := by
  unfold updateLastSyncTime; split <;> rfl

@[simp] theorem updateLastSyncTime_pushCalls (now : Nat)
    (st : UserDataSyncService) :
    (updateLastSyncTime now st).pushCalls = st.pushCalls := by
  unfold updateLastSyncTime; split <;> rfl

@[simp] theorem updateLastSyncTime_storedSessionId (now : Nat)
    (st : UserDataSyncService) :
    (updateLastSyncTime now st).storedSessionId = st.storedSessionId := by
  unfold updateLastSyncTime; split <;> rfl

@[simp] theorem updateLastSyncTime_logEvents (now : Nat)
    (st : UserDataSyncService) :
    (updateLastSyncTime now st).logEvents = st.logEvents := by
  unfold updateLastSyncTime; split <;> rfl

@[simp] theorem updateLastSyncTime_telemetryEvents (now : Nat)
    (st : UserDataSyncService) :
    (updateLastSyncTime now st).telemetryEvents = st.telemetryEvents := by
  unfold updateLastSyncTime; split <;> rfl

@[simp] theorem setStatus_status (now : Nat) (s : SyncStatus)
    (st : UserDataSyncService) :
    (setStatus now s st).status = s := by
  unfold setStatus
  dsimp only
  split
  · split <;> simp
  · next h => exact not_not.mp h

@[simp] theorem setStatus_storeConfigured (now : Nat) (s : SyncStatus)
    (st : UserDataSyncService) :
    (setStatus now s st).storeConfigured = st.storeConfigured := by
  unfold setStatus
  dsimp only
  split
  · split <;> simp
  · rfl

@[simp] theorem setStatus_conflictsSources (now : Nat) (s : SyncStatus)
    (st : UserDataSyncService) :
    (setStatus now s st).conflictsSources = st.conflictsSources := by
  unfold setStatus
  dsimp only
  split
  · split <;> simp
  · rfl

@[simp] theorem setStatus_conflictsEvents (now : Nat) (s : SyncStatus)
    (st : UserDataSyncService) :
    (setStatus now s st).conflictsEvents = st.conflictsEvents := by
  unfold setStatus
  dsimp only
  split
  · split <;> simp
  · rfl

@[simp] theorem setStatus_syncErrors (now : Nat) (s : SyncStatus)
    (st : UserDataSyncService) :
    (setStatus now s st).syncErrors = st.syncErrors := by
  unfold setStatus
  dsimp only
  split
  · split <;> simp
  · rfl

@[simp] theorem setStatus_syncErrorsEvents (now : Nat) (s : SyncStatus)
    (st : UserDataSyncService) :
    (setStatus now s st).syncErrorsEvents = st.syncErrorsEvents := by
  unfold setStatus
  dsimp only
  split
  · split <;> simp
  · rfl

@[simp] theorem setStatus_syncCalls (now : Nat) (s : SyncStatus)
    (st : UserDataSyncService) :
    (setStatus now s st).syncCalls = st.syncCalls := by
  unfold setStatus
  dsimp only
  split
  · split <;> simp
  · rfl

@[simp] theorem setStatus_pullCalls (now : Nat) (s : SyncStatus)
    (st : UserDataSyncService) :
    (setStatus now s st).pullCalls = st.pullCalls := by
  unfold setStatus
  dsimp only
  split
  · split <;> simp
  · rfl

@[simp] theorem setStatus_pushCalls (now : Nat) (s : SyncStatus)
    (st : UserDataSyncService) :
    (setStatus now s st).pushCalls = st.pushCalls := by
  unfold setStatus
  dsimp only
  split
  · split <;> simp
  · rfl

@[simp] theorem setStatus_storedSessionId (now : Nat) (s : SyncStatus)
    (st : UserDataSyncService) :
    (setStatus now s st).storedSessionId = st.storedSessionId := by
  unfold setStatus
  dsimp only
  split
  · split <;> simp
  · rfl

@[simp] theorem setStatus_logEvents (now : Nat) (s : SyncStatus)
    (st : UserDataSyncService) :
    (setStatus now s st).logEvents = st.logEvents := by
  unfold setStatus
  dsimp only
  split
  · split <;> simp
  · rfl

@[simp] theorem setStatus_telemetryEvents (now : Nat) (s : SyncStatus)
    (st : UserDataSyncService) :
    (setStatus now s st).telemetryEvents = st.telemetryEvents := by
  unfold setStatus
  dsimp only
  split
  · split <;> simp
  · rfl

@[simp] theorem updateStatus_status (now : Nat) (syncs : List Synchroniser)
    (st : UserDataSyncService) :
    (updateStatus now syncs st).status =
      computeStatus st.storeConfigured syncs := by
  unfold updateStatus
  dsimp only
  split <;> simp

@[simp] theorem updateStatus_storeConfigured (now : Nat)
    (syncs : List Synchroniser) (st : UserDataSyncService) :
    (updateStatus now syncs st).storeConfigured = st.storeConfigured := by
  unfold updateStatus
  dsimp only
  split <;> simp

@[simp] theorem updateStatus_syncErrors (now : Nat)
    (syncs : List Synchroniser) (st : UserDataSyncService) :
    (updateStatus now syncs st).syncErrors = st.syncErrors := by
  unfold updateStatus
  dsimp only
  split <;> simp

@[simp] theorem updateStatus_syncErrorsEvents (now : Nat)
    (syncs : List Synchroniser) (st : UserDataSyncService) :
    (updateStatus now syncs st).syncErrorsEvents = st.syncErrorsEvents := by
  unfold updateStatus
  dsimp only
  split <;> simp

@[simp] theorem updateStatus_syncCalls (now : Nat)
    (syncs : List Synchroniser) (st : UserDataSyncService) :
    (updateStatus now syncs st).syncCalls = st.syncCalls := by
  unfold updateStatus
  dsimp only
  split <;> simp

@[simp] theorem updateStatus_pullCalls (now : Nat)
    (syncs : List Synchroniser) (st : UserDataSyncService) :
    (updateStatus now syncs st).pullCalls = st.pullCalls := by
  unfold updateStatus
  dsimp only
  split <;> simp

@[simp] theorem updateStatus_pushCalls (now : Nat)
    (syncs : List Synchroniser) (st : UserDataSyncService) :
    (updateStatus now syncs st).pushCalls = st.pushCalls := by
  unfold updateStatus
  dsimp only
  split <;> simp

@[simp] theorem updateStatus_storedSessionId (now : Nat)
    (syncs : List Synchroniser) (st : UserDataSyncService) :
    (updateStatus now syncs st).storedSessionId = st.storedSessionId := by
  unfold updateStatus
  dsimp only
  split <;> simp

@[simp] theorem updateStatus_logEvents (now : Nat)
    (syncs : List Synchroniser) (st : UserDataSyncService) :
    (updateStatus now syncs st).logEvents = st.logEvents := by
  unfold updateStatus
  dsimp only
  split <;> simp

@[simp] theorem updateStatus_telemetryEvents (now : Nat)
    (syncs : List Synchroniser) (st : UserDataSyncService) :
    (updateStatus now syncs st).telemetryEvents = st.telemetryEvents := by
  unfold updateStatus
  dsimp only
  split <;> simp

theorem updateStatus_conflictsEvents (now : Nat)
    (syncs : List Synchroniser) (st : UserDataSyncService) :
    (updateStatus now syncs st).conflictsEvents =
      if arraysEquals st.conflictsSources (computeConflictsSources syncs)
      then st.conflictsEvents
      else st.conflictsEvents ++ [computeConflictsSources syncs] := by
  unfold updateStatus
  dsimp only
  by_cases h : arraysEquals st.conflictsSources (computeConflictsSources syncs)
  · simp [h]
  · simp [h]

end UserDataSyncService

namespace UserDataSyncService

theorem handleSyncError_storeError (code : SyncErrorCode) (msg : String)
    (source : SyncSource) (st : UserDataSyncService) :
    handleSyncError (SyncError.storeError code msg) source st =
      (if code = SyncErrorCode.TooLarge then
        { st with telemetryEvents := st.telemetryEvents ++ [source] }
      else st, some (SyncError.storeError code msg)) := rfl

theorem handleSyncError_nonStore (e : SyncError) (source : SyncSource)
    (st : UserDataSyncService) (h : e.isStoreError = false) :
    handleSyncError e source st =
      ({ st with logEvents := st.logEvents ++ [(none, e), (some source, e)] },
        none) := by
  cases e with
  | storeError code msg => simp [SyncError.isStoreError] at h
  | syncError code msg => rfl
  | jsError msg => rfl

/-- A run of synchronisers whose `sync` failures are all non-store errors
is swallowed whole: each synchroniser is invoked, each failure is logged
and captured into `_syncErrors`, and nothing is thrown. -/
theorem syncLoop_nonAborting (manifest : Option Manifest)
    (l : List Synchroniser) (st : UserDataSyncService)
    (h : NonAborting (fun s => s.syncResult) l) :
    syncLoop manifest l st =
      ({ st with
        syncCalls := st.syncCalls ++ l.map fun s => (s.source, syncArg manifest s)
        syncErrors := st.syncErrors ++ capturedErrors l
        logEvents := st.logEvents ++ loggedErrors (fun s => s.syncResult) l },
        none) := by
  induction l generalizing st with
  | nil => simp [syncLoop, capturedErrors, loggedErrors]
  | cons s rest ih =>
    have hs := h s (by simp)
    have hrest : NonAborting (fun s => s.syncResult) rest :=
      fun x hx => h x (by simp [hx])
    cases hsr : s.syncResult with
    | none =>
      simp only [syncLoop, hsr]
      rw [ih _ hrest]
      simp [capturedErrors, loggedErrors, hsr]
    | some e =>
      have he : e.isStoreError = false := hs e hsr
      simp only [syncLoop, hsr, handleSyncError_nonStore e s.source _ he]
      rw [ih _ hrest]
      simp [capturedErrors, loggedErrors, hsr]

end UserDataSyncService

namespace UserDataSyncService

/-- A run of synchronisers whose `pull` failures are all non-store errors
is swallowed whole: each synchroniser is invoked, each failure is logged,
and nothing is thrown. -/
theorem pullLoop_nonAborting (l : List Synchroniser)
    (st : UserDataSyncService)
    (h : NonAborting (fun s => s.pullResult) l) :
    pullLoop l st =
      ({ st with
        pullCalls := st.pullCalls ++ l.map fun s => s.source
        logEvents := st.logEvents ++ loggedErrors (fun s => s.pullResult) l },
        none) := by
  induction l generalizing st with
  | nil => simp [pullLoop, loggedErrors]
  | cons s rest ih =>
    have hs := h s (by simp)
    have hrest : NonAborting (fun s => s.pullResult) rest :=
      fun x hx => h x (by simp [hx])
    cases hsr : s.pullResult with
    | none =>
      simp only [pullLoop, hsr]
      rw [ih _ hrest]
      simp [loggedErrors, hsr]
    | some e =>
      have he : e.isStoreError = false := hs e hsr
      simp only [pullLoop, hsr, handleSyncError_nonStore e s.source _ he]
      rw [ih _ hrest]
      simp [loggedErrors, hsr]

/-- A run of synchronisers whose `push` failures are all non-store errors
is swallowed whole: each synchroniser is invoked, each failure is logged,
and nothing is thrown. -/
theorem pushLoop_nonAborting (l : List Synchroniser)
    (st : UserDataSyncService)
    (h : NonAborting (fun s => s.pushResult) l) :
    pushLoop l st =
      ({ st with
        pushCalls := st.pushCalls ++ l.map fun s => s.source
        logEvents := st.logEvents ++ loggedErrors (fun s => s.pushResult) l },
        none) := by
  induction l generalizing st with
  | nil => simp [pushLoop, loggedErrors]
  | cons s rest ih =>
    have hs := h s (by simp)
    have hrest : NonAborting (fun s => s.pushResult) rest :=
      fun x hx => h x (by simp [hx])
    cases hsr : s.pushResult with
    | none =>
      simp only [pushLoop, hsr]
      rw [ih _ hrest]
      simp [loggedErrors, hsr]
    | some e =>
      have he : e.isStoreError = false := hs e hsr
      simp only [pushLoop, hsr, handleSyncError_nonStore e s.source _ he]
      rw [ih _ hrest]
      simp [loggedErrors, hsr]

/-- Splitting the `sync()` loop after a non-aborting prefix. -/
theorem syncLoop_append (manifest : Option Manifest)
    (pre rest : List Synchroniser) (st : UserDataSyncService)
    (h : NonAborting (fun s => s.syncResult) pre) :
    syncLoop manifest (pre ++ rest) st =
      syncLoop manifest rest (syncLoop manifest pre st).1 := by
  induction pre generalizing st with
  | nil => simp [syncLoop]
  | cons s pre ih =>
    have hs := h s (by simp)
    have hpre : NonAborting (fun s => s.syncResult) pre :=
      fun x hx => h x (by simp [hx])
    cases hsr : s.syncResult with
    | none =>
      simp only [List.cons_append, syncLoop, hsr]
      exact ih _ hpre
    | some e =>
      have he : e.isStoreError = false := hs e hsr
      simp only [List.cons_append, syncLoop, hsr,
        handleSyncError_nonStore e s.source _ he]
      exact ih _ hpre

/-- A synchroniser whose `sync` rejects with a store error aborts the
loop: its call is recorded, a `TooLarge` code produces the telemetry
event, the error is re-thrown, and nothing past it runs. -/
theorem syncLoop_cons_store (manifest : Option Manifest)
    (s : Synchroniser) (rest : List Synchroniser)
    (st : UserDataSyncService) (code : SyncErrorCode) (msg : String)
    (h : s.syncResult = some (SyncError.storeError code msg)) :
    syncLoop manifest (s :: rest) st =
      (if code = SyncErrorCode.TooLarge then
        { st with
          syncCalls := st.syncCalls ++ [(s.source, syncArg manifest s)]
          telemetryEvents := st.telemetryEvents ++ [s.source] }
      else
        { st with
          syncCalls := st.syncCalls ++ [(s.source, syncArg manifest s)] },
        some (SyncError.storeError code msg)) := by
  simp only [syncLoop, h, handleSyncError_storeError]

end UserDataSyncService

namespace UserDataSyncService

theorem syncTryBody_turnedOff (syncs : List Synchroniser)
    (m2 : Option Manifest) (now : Nat) (st : UserDataSyncService)
    (hprev : hasPreviouslySynced syncs = true) :
    syncTryBody syncs none m2 now st =
      (if st.status ≠ SyncStatus.HasConflicts then
        setStatus now SyncStatus.Syncing st
      else st, some turnedOffError) := by
  unfold syncTryBody
  dsimp only
  simp [hprev]

end UserDataSyncService

open UserDataSyncService

/-- C5: for every store configuration and tuple of per-synchroniser
statuses, the recomputed aggregate status equals the spec's rule:
`Uninitialized` if the store is not configured, else `HasConflicts` if
any synchroniser's status is `HasConflicts`, else `Syncing` if any
synchroniser's status is `Syncing`, else `Idle`. -/
theorem computeStatus_matches_spec (storeConfigured : Bool)
    (syncs : List Synchroniser) :
    computeStatus storeConfigured syncs =
      specAggregateStatus storeConfigured (syncs.map fun s => s.status) := by
  unfold computeStatus specAggregateStatus
  cases storeConfigured with
  | false => rfl
  | true => simp [List.any_eq_true, List.mem_map]

/-- C8: `updateLastSyncTime` refreshes `LastSyncTime` (in memory, in
storage, and through the change notification) exactly when the aggregate
status is `Idle` at the moment of the update, and leaves the state
completely untouched otherwise — in particular it never updates while
conflicts are outstanding. -/
theorem lastSyncTime_updated_only_when_idle (now : Nat)
    (st : UserDataSyncService) :
    (st.status = SyncStatus.Idle →
      updateLastSyncTime now st =
        { st with
          lastSyncTime := some now
          storedLastSyncTime := some now
          lastSyncTimeEvents := st.lastSyncTimeEvents ++ [now] }) ∧
    (st.status ≠ SyncStatus.Idle → updateLastSyncTime now st = st) := by
  constructor <;> intro h <;> simp [updateLastSyncTime, h]

theorem lastSyncTime_updated_only_when_idle_witness :
    updateLastSyncTime 7 { initialService true with status := SyncStatus.Idle } =
      { initialService true with
        status := SyncStatus.Idle
        lastSyncTime := some 7
        storedLastSyncTime := some 7
        lastSyncTimeEvents := [7] } :=
  (lastSyncTime_updated_only_when_idle 7
    { initialService true with status := SyncStatus.Idle }).1 rfl

/-- C2 counterexample: a transition away from `HasConflicts` to `Syncing`
does not refresh `LastSyncTime`: nothing is stored, the in-memory value
is unchanged, and no `_onDidChangeLastSyncTime` notification fires. -/
theorem conflicts_to_syncing_no_refresh_cex :
    (setStatus 5 SyncStatus.Syncing
        { initialService true with status := SyncStatus.HasConflicts }).status =
      SyncStatus.Syncing ∧
    (setStatus 5 SyncStatus.Syncing
        { initialService true with status := SyncStatus.HasConflicts }).lastSyncTime =
      none ∧
    (setStatus 5 SyncStatus.Syncing
        { initialService true with status := SyncStatus.HasConflicts }).storedLastSyncTime =
      none ∧
    (setStatus 5 SyncStatus.Syncing
        { initialService true with status := SyncStatus.HasConflicts }).lastSyncTimeEvents =
      [] :=
  ⟨rfl, rfl, rfl, rfl⟩

/-- C2 amended: whenever the aggregate status transitions away from
`HasConflicts`, `updateLastSyncTime` runs, but `LastSyncTime` is
refreshed (set, persisted and notified) only when the new status is
`Idle`; on a transition from `HasConflicts` to `Syncing` or
`Uninitialized` it is left untouched. -/
theorem leave_conflicts_refreshes_only_to_idle (now : Nat)
    (status : SyncStatus) (st : UserDataSyncService)
    (hold : st.status = SyncStatus.HasConflicts)
    (hnew : status ≠ SyncStatus.HasConflicts) :
    (status = SyncStatus.Idle →
      (setStatus now status st).lastSyncTime = some now ∧
      (setStatus now status st).storedLastSyncTime = some now ∧
      (setStatus now status st).lastSyncTimeEvents =
        st.lastSyncTimeEvents ++ [now]) ∧
    (status ≠ SyncStatus.Idle →
      (setStatus now status st).lastSyncTime = st.lastSyncTime ∧
      (setStatus now status st).storedLastSyncTime = st.storedLastSyncTime ∧
      (setStatus now status st).lastSyncTimeEvents =
        st.lastSyncTimeEvents) := by
  have hne : st.status ≠ status := by
    rw [hold]; exact fun hh => hnew hh.symm
  unfold setStatus
  dsimp only
  rw [if_pos hne, if_pos hold]
  unfold updateLastSyncTime
  constructor <;> intro hi <;> simp [hi]

theorem leave_conflicts_refreshes_only_to_idle_witness :
    (setStatus 7 SyncStatus.Idle
        { initialService true with status := SyncStatus.HasConflicts }).lastSyncTime =
      some 7 :=
  ((leave_conflicts_refreshes_only_to_idle 7 SyncStatus.Idle
      { initialService true with status := SyncStatus.HasConflicts }
      rfl (by decide)).1 rfl).1

/-- C3 counterexample: with the sync store not configured,
`resolveContent` does not fail with the `Not enabled` error — it answers
normally (here with `null`), because the method performs no
`checkEnablement` call. -/
theorem resolveContent_without_enablement_cex :
    (initialService false).storeConfigured = false ∧
    (resolveContent
        (mkSyncs SyncStatus.Idle SyncStatus.Idle SyncStatus.Idle SyncStatus.Idle)
        "settings" "someref" (initialService false)).2 = Except.ok none ∧
    (resolveContent
        (mkSyncs SyncStatus.Idle SyncStatus.Idle SyncStatus.Idle SyncStatus.Idle)
        "settings" "someref" (initialService false)).2 ≠
      Except.error notEnabledError := by
  refine ⟨rfl, rfl, fun h => ?_⟩
  rw [show (resolveContent
      (mkSyncs SyncStatus.Idle SyncStatus.Idle SyncStatus.Idle SyncStatus.Idle)
      "settings" "someref" (initialService false)).2 = Except.ok none from rfl] at h
  exact Except.noConfusion h

/-- C3 amended: every public operation of the orchestrator except
`resolveContent` — pull, push, sync, stop, accept, getRemoteContent,
isFirstTimeSyncWithMerge and reset — first checks that the sync store is
enabled and fails with the `Not enabled` error, mutating no state, when
it is not; `resolveContent` performs no enablement check (it never
mutates state either way). -/
theorem operations_require_enablement (syncs fsyncs : List Synchroniser)
    (m1 m2 : Option Manifest) (now now2 : Nat) (source : SyncSource)
    (content ref rk : String) (preview : Bool)
    (clearResult : Option SyncError) (st : UserDataSyncService)
    (h : st.storeConfigured = false) :
    pull syncs now st = (st, some notEnabledError) ∧
    push syncs now st = (st, some notEnabledError) ∧
    sync syncs m1 m2 now now2 fsyncs st = (st, some notEnabledError) ∧
    stop syncs st = (st, some notEnabledError) ∧
    accept syncs source content st = (st, some notEnabledError) ∧
    getRemoteContent syncs source preview st =
      (st, Except.error notEnabledError) ∧
    isFirstTimeSyncWithMerge syncs m1 st =
      (st, Except.error notEnabledError) ∧
    reset syncs clearResult st = (st, some notEnabledError) ∧
    (resolveContent syncs rk ref st).1 = st := by
  refine ⟨?_, ?_, ?_, ?_, ?_, ?_, ?_, ?_, ?_⟩
  · simp [pull, h]
  · simp [push, h]
  · simp [sync, h]
  · simp [stop, h]
  · simp [accept, h]
  · simp [getRemoteContent, h]
  · simp [isFirstTimeSyncWithMerge, h]
  · simp [reset, h]
  · unfold resolveContent
    split <;> rfl

theorem operations_require_enablement_witness :
    pull [] 3 (initialService false) =
      (initialService false, some notEnabledError) :=
  (operations_require_enablement [] [] none none 3 4 SyncSource.Settings
    "c" "r" "rk" false none (initialService false) rfl).1

/-- C6: when `sync()` fetches a `null` manifest while some synchroniser
reports it has previously completed a sync, the round fails with the
`TurnedOff` error and no synchroniser's `sync` method is invoked. -/
theorem sync_null_manifest_turnedOff (syncs fsyncs : List Synchroniser)
    (m2 : Option Manifest) (now now2 : Nat) (st : UserDataSyncService)
    (hen : st.storeConfigured = true)
    (hprev : hasPreviouslySynced syncs = true) :
    (sync syncs none m2 now now2 fsyncs st).2 = some turnedOffError ∧
    (sync syncs none m2 now now2 fsyncs st).1.syncCalls = st.syncCalls := by
  unfold sync
  dsimp only
  rw [hen]
  simp only [Bool.not_true, Bool.false_eq_true, if_false]
  rw [syncTryBody_turnedOff _ _ _ _ hprev]
  constructor
  · rfl
  · dsimp only
    split <;> simp

/-- Witness for C6 at a concrete input. -/
theorem sync_null_manifest_turnedOff_witness :
    (sync
        [{ mkSynchroniser SyncSource.Settings "settings" SyncStatus.Idle with
            hasPreviouslySynced := true }]
        none none 3 4 [] { initialService true with status := SyncStatus.Idle }).2 =
      some turnedOffError :=
  (sync_null_manifest_turnedOff
    [{ mkSynchroniser SyncSource.Settings "settings" SyncStatus.Idle with
        hasPreviouslySynced := true }]
    [] none 3 4 { initialService true with status := SyncStatus.Idle }
    rfl (by decide)).1

namespace UserDataSyncService

theorem syncTryBody_sessionExpired (syncs : List Synchroniser)
    (m : Manifest) (m2 : Option Manifest) (now : Nat)
    (st : UserDataSyncService) (sid : String)
    (hsid : st.storedSessionId = some sid) (hemp : sid ≠ "")
    (hne : sid ≠ m.session) :
    syncTryBody syncs (some m) m2 now st =
      (if st.status ≠ SyncStatus.HasConflicts then
        setStatus now SyncStatus.Syncing st
      else st, some sessionExpiredError) := by
  unfold syncTryBody
  dsimp only
  by_cases hb : st.status = SyncStatus.HasConflicts
  · simp [hb, sessionMismatch, hsid, hemp, hne]
  · simp [hb, sessionMismatch, hsid, hemp, hne]

end UserDataSyncService

/-- C7: when a locally persisted session id exists (a truthy, non-empty
string, as the JavaScript guard requires) and the fetched manifest's
session id differs from it, `sync()` fails with the `SessionExpired`
error and no synchroniser's `sync` method is invoked. -/
theorem sync_session_mismatch_expired (syncs fsyncs : List Synchroniser)
    (m : Manifest) (m2 : Option Manifest) (now now2 : Nat) (sid : String)
    (st : UserDataSyncService) (hen : st.storeConfigured = true)
    (hsid : st.storedSessionId = some sid) (hemp : sid ≠ "")
    (hne : sid ≠ m.session) :
    (sync syncs (some m) m2 now now2 fsyncs st).2 = some sessionExpiredError ∧
    (sync syncs (some m) m2 now now2 fsyncs st).1.syncCalls = st.syncCalls := by
  unfold sync
  dsimp only
  rw [hen]
  simp only [Bool.not_true, Bool.false_eq_true, if_false]
  rw [syncTryBody_sessionExpired _ _ _ _ _ sid (by simpa using hsid) hemp hne]
  constructor
  · rfl
  · dsimp only
    split <;> simp

/-- Witness for C7 at a concrete input: persisted session id "A",
manifest session "B". -/
theorem sync_session_mismatch_expired_witness :
    (sync (mkSyncs SyncStatus.Idle SyncStatus.Idle SyncStatus.Idle SyncStatus.Idle)
        (some ⟨"B", none⟩) none 3 4 []
        { initialService true with
          status := SyncStatus.Idle
          storedSessionId := some "A" }).2 = some sessionExpiredError :=
  (sync_session_mismatch_expired
    (mkSyncs SyncStatus.Idle SyncStatus.Idle SyncStatus.Idle SyncStatus.Idle)
    [] ⟨"B", none⟩ none 3 4 "A"
    { initialService true with
      status := SyncStatus.Idle
      storedSessionId := some "A" }
    rfl rfl (by decide) (by decide)).1

/-- C9: `isFirstTimeSyncWithMerge()` answers `true` exactly when a remote
manifest exists, no synchroniser has ever previously completed a sync,
and at least one synchroniser reports local data present; it answers
`false` for every other combination of these three conditions. -/
theorem isFirstTimeSyncWithMerge_truth_table (syncs : List Synchroniser)
    (manifest : Option Manifest) (st : UserDataSyncService)
    (hen : st.storeConfigured = true) :
    (isFirstTimeSyncWithMerge syncs manifest st).2 =
      Except.ok
        (manifest.isSome && (!hasPreviouslySynced syncs) &&
          hasLocalData syncs) ∧
    ((isFirstTimeSyncWithMerge syncs manifest st).2 = Except.ok true ↔
      manifest.isSome = true ∧
        (∀ s ∈ syncs, s.hasPreviouslySynced = false) ∧
        ∃ s ∈ syncs, s.hasLocalData = true) := by
  unfold isFirstTimeSyncWithMerge
  rw [hen]
  simp only [Bool.not_true, Bool.false_eq_true, if_false]
  constructor
  · cases manifest with
    | none => simp
    | some m =>
      by_cases hp : hasPreviouslySynced syncs
      · simp [hp]
      · simp [hp, Bool.not_eq_true] at *
  · cases manifest with
    | none => simp
    | some m =>
      by_cases hp : hasPreviouslySynced syncs
      · simp only [Option.isSome_some, true_and, if_pos hp]
        constructor
        · intro h
          exact absurd h (by simp)
        · rintro ⟨hall, s, hsmem, hsl⟩
          have := hall s hsmem
          rw [hasPreviouslySynced, List.any_eq_true] at hp
          obtain ⟨x, hxmem, hxp⟩ := hp
          exact absurd (hall x hxmem) (by simp [hxp])
      · rw [if_neg hp, if_neg (by simp)]
        rw [hasPreviouslySynced, List.any_eq_true] at hp
        push_neg at hp
        simp only [Except.ok.injEq, Option.isSome_some, true_and]
        rw [hasLocalData, List.any_eq_true]
        constructor
        · intro h
          exact ⟨fun s hs => by simpa using hp s hs, by simpa using h⟩
        · rintro ⟨hall, s, hsmem, hsl⟩
          exact ⟨s, hsmem, hsl⟩

/-- Witness for C9 at a concrete input: manifest present, no prior sync,
local data present. -/
theorem isFirstTimeSyncWithMerge_truth_table_witness :
    (isFirstTimeSyncWithMerge
        [{ mkSynchroniser SyncSource.Settings "settings" SyncStatus.Idle with
            hasLocalData := true }]
        (some ⟨"s", none⟩) (initialService true)).2 = Except.ok true :=
  (isFirstTimeSyncWithMerge_truth_table
    [{ mkSynchroniser SyncSource.Settings "settings" SyncStatus.Idle with
        hasLocalData := true }]
    (some ⟨"s", none⟩) (initialService true) rfl).2.mpr
    (by refine ⟨rfl, ?_, ?_⟩ <;> simp [mkSynchroniser])

namespace UserDataSyncService

theorem computeConflictsSources_mkSyncs (a b c d : SyncStatus) :
    computeConflictsSources (mkSyncs a b c d) =
      conflictFlags (a == SyncStatus.HasConflicts)
        (b == SyncStatus.HasConflicts) (c == SyncStatus.HasConflicts)
        (d == SyncStatus.HasConflicts) := by
  cases a <;> cases b <;> cases c <;> cases d <;> rfl

/-- On conflict-source lists produced in the fixed registration order,
index-wise array equality coincides with equality as unordered
collections. -/
theorem arraysEquals_conflictFlags_iff (p1 p2 p3 p4 q1 q2 q3 q4 : Bool) :
    (arraysEquals (conflictFlags p1 p2 p3 p4)
        (conflictFlags q1 q2 q3 q4) = true) ↔
      ∀ s : SyncSource,
        s ∈ conflictFlags p1 p2 p3 p4 ↔ s ∈ conflictFlags q1 q2 q3 q4 := by
  revert p1 p2 p3 p4 q1 q2 q3 q4
  decide

end UserDataSyncService

/-- C4: starting from a conflict-source list the orchestrator itself
computed (they are always in the fixed registration order), a run of
`updateStatus` fires the `_onDidChangeConflicts` notification if and only
if the newly computed set of conflict sources differs from the previous
one as an unordered collection. -/
theorem conflicts_event_iff_set_changed (now : Nat)
    (a b c d a2 b2 c2 d2 : SyncStatus) (st : UserDataSyncService)
    (hprev : st.conflictsSources = computeConflictsSources (mkSyncs a b c d)) :
    (updateStatus now (mkSyncs a2 b2 c2 d2) st).conflictsEvents ≠
        st.conflictsEvents ↔
      ¬∀ s : SyncSource,
        s ∈ computeConflictsSources (mkSyncs a b c d) ↔
        s ∈ computeConflictsSources (mkSyncs a2 b2 c2 d2) := by
  rw [updateStatus_conflictsEvents, hprev,
    computeConflictsSources_mkSyncs a b c d,
    computeConflictsSources_mkSyncs a2 b2 c2 d2]
  by_cases h : arraysEquals
      (conflictFlags (a == SyncStatus.HasConflicts)
        (b == SyncStatus.HasConflicts) (c == SyncStatus.HasConflicts)
        (d == SyncStatus.HasConflicts))
      (conflictFlags (a2 == SyncStatus.HasConflicts)
        (b2 == SyncStatus.HasConflicts) (c2 == SyncStatus.HasConflicts)
        (d2 == SyncStatus.HasConflicts)) = true
  · rw [if_pos h]
    exact iff_of_false (by simp)
      (not_not_intro ((arraysEquals_conflictFlags_iff _ _ _ _ _ _ _ _).mp h))
  · rw [if_neg h]
    refine iff_of_true ?_
      (fun hall => h ((arraysEquals_conflictFlags_iff _ _ _ _ _ _ _ _).mpr hall))
    intro hh
    have hlen := congrArg List.length hh
    simp at hlen

/-- Witness for C4 at a concrete input: the conflict set goes from empty
to containing the settings source, so the notification fires. -/
theorem conflicts_event_iff_set_changed_witness :
    (updateStatus 3
        (mkSyncs SyncStatus.HasConflicts SyncStatus.Idle SyncStatus.Idle
          SyncStatus.Idle)
        (initialService true)).conflictsEvents ≠
      (initialService true).conflictsEvents :=
  (conflicts_event_iff_set_changed 3 SyncStatus.Idle SyncStatus.Idle
    SyncStatus.Idle SyncStatus.Idle SyncStatus.HasConflicts SyncStatus.Idle
    SyncStatus.Idle SyncStatus.Idle (initialService true) rfl).mpr
    (by decide)

theorem toUserDataSyncError_not_store (e : SyncError)
    (h : e.isStoreError = false) :
    e.toUserDataSyncError.isStoreError = false := by
  cases e <;>
    simp_all [SyncError.toUserDataSyncError, SyncError.isStoreError]

theorem capturedErrors_all_none (l : List Synchroniser)
    (h : ∀ s ∈ l, s.syncResult = none) : capturedErrors l = [] := by
  induction l with
  | nil => rfl
  | cons s rest ih =>
    have hs := h s (by simp)
    rw [capturedErrors, hs]
    exact ih fun x hx => h x (by simp [hx])

theorem capturedErrors_append (l1 l2 : List Synchroniser) :
    capturedErrors (l1 ++ l2) = capturedErrors l1 ++ capturedErrors l2 := by
  induction l1 with
  | nil => rfl
  | cons s rest ih =>
    rw [List.cons_append, capturedErrors, capturedErrors]
    cases s.syncResult <;> simp [ih]

theorem capturedErrors_not_store (l : List Synchroniser)
    (h : NonAborting (fun s => s.syncResult) l) :
    ∀ p ∈ capturedErrors l, p.2.isStoreError = false := by
  induction l with
  | nil => intro p hp; cases hp
  | cons s rest ih =>
    intro p hp
    rw [capturedErrors] at hp
    have hrest : NonAborting (fun s => s.syncResult) rest :=
      fun x hx => h x (by simp [hx])
    cases hsr : s.syncResult with
    | none =>
      rw [hsr] at hp
      exact ih hrest p hp
    | some e =>
      rw [hsr] at hp
      rcases List.mem_cons.mp hp with hph | hpt
      · subst hph
        exact toUserDataSyncError_not_store e (h s (by simp) e hsr)
      · exact ih hrest p hpt

/-- C1 counterexample: synchroniser #2 of 4 throws a store error whose
code is `Unauthorized` — a non-`TooLarge` error — yet the error
propagates out of the loop to `sync()`'s caller, synchronisers #3 and #4
do not receive their `sync` call, and the round's error list is empty
rather than containing an entry for source #2. -/
theorem sync_nonTooLarge_store_error_propagates_cex :
    (sync storeErrorAtSecond (some ⟨"s", none⟩) none 5 6 storeErrorAtSecond
        idleService).2 =
      some (SyncError.storeError SyncErrorCode.Unauthorized "boom") ∧
    (sync storeErrorAtSecond (some ⟨"s", none⟩) none 5 6 storeErrorAtSecond
        idleService).1.syncCalls =
      [(SyncSource.Settings, none), (SyncSource.Keybindings, none)] ∧
    (sync storeErrorAtSecond (some ⟨"s", none⟩) none 5 6 storeErrorAtSecond
        idleService).1.syncErrors = [] :=
  ⟨rfl, rfl, rfl⟩

/-- C1 amended: in `pull()`, `push()` and `sync()`, exactly the store
errors (`UserDataSyncStoreError`, whatever their code — `TooLarge` being
one such code) propagate out of the per-synchroniser loop to the caller;
every non-store exception thrown by a synchroniser is logged (and, for
`sync()`, recorded in the per-round error list) and does not propagate,
so when synchroniser k of n throws a non-store error, synchronisers
k+1..n still receive their call and the round's error list contains
exactly one entry, for synchroniser k's source. -/
theorem sync_error_isolation_amended :
    (∀ (code : SyncErrorCode) (msg : String) (source : SyncSource)
        (st : UserDataSyncService),
      (handleSyncError (SyncError.storeError code msg) source st).2 =
        some (SyncError.storeError code msg)) ∧
    (∀ (e : SyncError) (source : SyncSource) (st : UserDataSyncService),
      e.isStoreError = false →
      (handleSyncError e source st).2 = none ∧
      (handleSyncError e source st).1.logEvents =
        st.logEvents ++ [(none, e), (some source, e)]) ∧
    (∀ (pre post : List Synchroniser) (k : Synchroniser) (e : SyncError)
        (manifest : Option Manifest) (st : UserDataSyncService),
      (∀ s ∈ pre, s.syncResult = none) → (∀ s ∈ post, s.syncResult = none) →
      k.syncResult = some e → e.isStoreError = false →
      (syncLoop manifest (pre ++ k :: post) st).2 = none ∧
      (syncLoop manifest (pre ++ k :: post) st).1.syncCalls =
        st.syncCalls ++
          (pre ++ k :: post).map (fun s => (s.source, syncArg manifest s)) ∧
      (syncLoop manifest (pre ++ k :: post) st).1.syncErrors =
        st.syncErrors ++ [(k.source, e.toUserDataSyncError)]) ∧
    (∀ (pre post : List Synchroniser) (k : Synchroniser) (e : SyncError)
        (st : UserDataSyncService),
      (∀ s ∈ pre, s.pullResult = none) → (∀ s ∈ post, s.pullResult = none) →
      k.pullResult = some e → e.isStoreError = false →
      (pullLoop (pre ++ k :: post) st).2 = none ∧
      (pullLoop (pre ++ k :: post) st).1.pullCalls =
        st.pullCalls ++ (pre ++ k :: post).map (fun s => s.source)) ∧
    (∀ (pre post : List Synchroniser) (k : Synchroniser) (e : SyncError)
        (st : UserDataSyncService),
      (∀ s ∈ pre, s.pushResult = none) → (∀ s ∈ post, s.pushResult = none) →
      k.pushResult = some e → e.isStoreError = false →
      (pushLoop (pre ++ k :: post) st).2 = none ∧
      (pushLoop (pre ++ k :: post) st).1.pushCalls =
        st.pushCalls ++ (pre ++ k :: post).map (fun s => s.source)) := by
  refine ⟨?_, ?_, ?_, ?_, ?_⟩
  · intro code msg source st
    rw [handleSyncError_storeError]
  · intro e source st he
    rw [handleSyncError_nonStore e source st he]
    exact ⟨rfl, rfl⟩
  · intro pre post k e manifest st hpre hpost hk he
    have hna : NonAborting (fun s => s.syncResult) (pre ++ k :: post) := by
      intro s hs e2 he2
      have he2 : s.syncResult = some e2 := he2
      rcases List.mem_append.mp hs with hsp | hsk
      · rw [hpre s hsp] at he2; cases he2
      · rcases List.mem_cons.mp hsk with hh | ht
        · subst hh
          rw [hk] at he2
          cases he2
          exact he
        · rw [hpost s ht] at he2; cases he2
    rw [syncLoop_nonAborting _ _ _ hna]
    refine ⟨rfl, rfl, ?_⟩
    have hcap : capturedErrors (pre ++ k :: post) =
        [(k.source, e.toUserDataSyncError)] := by
      rw [capturedErrors_append, capturedErrors_all_none pre hpre,
        capturedErrors, hk, capturedErrors_all_none post hpost]
      rfl
    simp [hcap]
  · intro pre post k e st hpre hpost hk he
    have hna : NonAborting (fun s => s.pullResult) (pre ++ k :: post) := by
      intro s hs e2 he2
      have he2 : s.pullResult = some e2 := he2
      rcases List.mem_append.mp hs with hsp | hsk
      · rw [hpre s hsp] at he2; cases he2
      · rcases List.mem_cons.mp hsk with hh | ht
        · subst hh
          rw [hk] at he2
          cases he2
          exact he
        · rw [hpost s ht] at he2; cases he2
    rw [pullLoop_nonAborting _ _ hna]
    exact ⟨rfl, rfl⟩
  · intro pre post k e st hpre hpost hk he
    have hna : NonAborting (fun s => s.pushResult) (pre ++ k :: post) := by
      intro s hs e2 he2
      have he2 : s.pushResult = some e2 := he2
      rcases List.mem_append.mp hs with hsp | hsk
      · rw [hpre s hsp] at he2; cases he2
      · rcases List.mem_cons.mp hsk with hh | ht
        · subst hh
          rw [hk] at he2
          cases he2
          exact he
        · rw [hpost s ht] at he2; cases he2
    rw [pushLoop_nonAborting _ _ hna]
    exact ⟨rfl, rfl⟩

/-- Witness for the amended C1 at a concrete input: with a plain error at
synchroniser #2, the loop throws nothing. -/
theorem sync_error_isolation_amended_witness :
    (syncLoop none plainErrorAtSecond idleService).2 = none :=
  (sync_error_isolation_amended.2.2.1
    [mkSynchroniser SyncSource.Settings "settings" SyncStatus.Idle]
    [mkSynchroniser SyncSource.GlobalState "globalState" SyncStatus.Idle,
     mkSynchroniser SyncSource.Extensions "extensions" SyncStatus.Idle]
    { mkSynchroniser SyncSource.Keybindings "keybindings" SyncStatus.Idle with
        syncResult := some (SyncError.jsError "disk failure") }
    (SyncError.jsError "disk failure") none idleService
    (by decide) (by decide) rfl rfl).1

namespace UserDataSyncService

/-- Full effect of the `sync()` loop when a non-aborting prefix `pre` is
followed by a synchroniser `k` that throws a store error: `pre`'s calls
and `k`'s call are recorded, `pre`'s failures are captured, `k`'s store
error is re-thrown (with telemetry when its code is `TooLarge`), and the
rest of the list is never reached. -/
theorem syncLoop_abort_after_prefix (pre post : List Synchroniser)
    (k : Synchroniser) (code : SyncErrorCode) (msg : String)
    (manifest1 : Option Manifest) (stb : UserDataSyncService)
    (hpre : NonAborting (fun s => s.syncResult) pre)
    (hk : k.syncResult = some (SyncError.storeError code msg)) :
    syncLoop manifest1 (pre ++ k :: post) stb =
      (if code = SyncErrorCode.TooLarge then
        { stb with
          syncCalls := stb.syncCalls ++
            pre.map (fun s => (s.source, syncArg manifest1 s)) ++
            [(k.source, syncArg manifest1 k)]
          syncErrors := stb.syncErrors ++ capturedErrors pre
          logEvents := stb.logEvents ++ loggedErrors (fun s => s.syncResult) pre
          telemetryEvents := stb.telemetryEvents ++ [k.source] }
      else
        { stb with
          syncCalls := stb.syncCalls ++
            pre.map (fun s => (s.source, syncArg manifest1 s)) ++
            [(k.source, syncArg manifest1 k)]
          syncErrors := stb.syncErrors ++ capturedErrors pre
          logEvents := stb.logEvents ++
            loggedErrors (fun s => s.syncResult) pre },
        some (SyncError.storeError code msg)) := by
  rw [syncLoop_append _ _ _ _ hpre, syncLoop_nonAborting _ _ _ hpre]
  dsimp only
  rw [syncLoop_cons_store _ _ _ _ _ _ hk]

/-- When the early checks pass and the loop throws, `syncTryBody`
propagates the loop's thrown error and state. -/
theorem syncTryBody_loop_throws (syncs : List Synchroniser)
    (manifest1 m2 : Option Manifest) (now : Nat)
    (st stl : UserDataSyncService) (err : SyncError)
    (hm : ¬(manifest1 = none ∧ hasPreviouslySynced syncs = true))
    (hs : sessionMismatch st.storedSessionId manifest1 = false)
    (hloop : syncLoop manifest1 syncs
        (if st.status ≠ SyncStatus.HasConflicts then
          setStatus now SyncStatus.Syncing st
        else st) = (stl, some err)) :
    syncTryBody syncs manifest1 m2 now st = (stl, some err) := by
  unfold syncTryBody
  dsimp only
  by_cases hb : st.status = SyncStatus.HasConflicts
  · rw [if_neg (not_not_intro hb)] at hloop
    simp [hb, hm, hs, hloop]
  · rw [if_pos hb] at hloop
    simp [hb, hm, hs, hloop]

end UserDataSyncService

/-- C10: in a `sync()` round in which, after a prefix of synchronisers
that fail only with swallowed (non-store) errors, some synchroniser's
`sync` throws a store error, the per-synchroniser loop aborts (later
synchronisers receive no call), the propagating store error is absent
from the round's error list (every captured entry is a non-store error),
and the `finally` block still recomputes the aggregate status and fires
the batch `_onSyncErrors` notification containing exactly the errors
captured before the abort. -/
theorem sync_store_error_aborts_round (pre post fsyncs : List Synchroniser)
    (k : Synchroniser) (code : SyncErrorCode) (msg : String)
    (manifest1 m2 : Option Manifest) (now now2 : Nat)
    (st : UserDataSyncService)
    (hen : st.storeConfigured = true)
    (hpre : NonAborting (fun s => s.syncResult) pre)
    (hk : k.syncResult = some (SyncError.storeError code msg))
    (hm : ¬(manifest1 = none ∧ hasPreviouslySynced (pre ++ k :: post) = true))
    (hs : sessionMismatch st.storedSessionId manifest1 = false) :
    (sync (pre ++ k :: post) manifest1 m2 now now2 fsyncs st).2 =
      some (SyncError.storeError code msg) ∧
    (sync (pre ++ k :: post) manifest1 m2 now now2 fsyncs st).1.syncCalls =
      st.syncCalls ++ pre.map (fun s => (s.source, syncArg manifest1 s)) ++
        [(k.source, syncArg manifest1 k)] ∧
    (sync (pre ++ k :: post) manifest1 m2 now now2 fsyncs
        st).1.syncErrorsEvents =
      st.syncErrorsEvents ++ [capturedErrors pre] ∧
    (∀ p ∈ capturedErrors pre, p.2.isStoreError = false) ∧
    (sync (pre ++ k :: post) manifest1 m2 now now2 fsyncs st).1.status =
      computeStatus st.storeConfigured fsyncs := by
  have hcap := capturedErrors_not_store pre hpre
  have hloop := syncLoop_abort_after_prefix pre post k code msg manifest1
    (if ({ st with syncErrors := [] } : UserDataSyncService).status ≠
        SyncStatus.HasConflicts then
      setStatus now SyncStatus.Syncing { st with syncErrors := [] }
    else { st with syncErrors := [] }) hpre hk
  have htb := syncTryBody_loop_throws (pre ++ k :: post) manifest1 m2 now
    { st with syncErrors := [] } _ _ hm hs hloop
  unfold sync
  dsimp only
  rw [if_neg (by simp [hen] : ¬((!st.storeConfigured) = true))]
  rw [htb]
  dsimp only
  by_cases hc : code = SyncErrorCode.TooLarge <;>
    by_cases hb : st.status = SyncStatus.HasConflicts <;>
      simp [hc, hb, hcap] <;>
        exact fun a b hab => hcap (a, b) hab

/-- Witness for C10 at a concrete input: a non-`TooLarge` store error at
synchroniser #2 propagates out of `sync()`. -/
theorem sync_store_error_aborts_round_witness :
    (sync storeErrorAtSecond (some ⟨"s", none⟩) none 5 6 storeErrorAtSecond
        idleService).2 =
      some (SyncError.storeError SyncErrorCode.Unauthorized "boom") :=
  (sync_store_error_aborts_round
    [mkSynchroniser SyncSource.Settings "settings" SyncStatus.Idle]
    [mkSynchroniser SyncSource.GlobalState "globalState" SyncStatus.Idle,
     mkSynchroniser SyncSource.Extensions "extensions" SyncStatus.Idle]
    storeErrorAtSecond
    { mkSynchroniser SyncSource.Keybindings "keybindings" SyncStatus.Idle with
        syncResult :=
          some (SyncError.storeError SyncErrorCode.Unauthorized "boom") }
    SyncErrorCode.Unauthorized "boom" (some ⟨"s", none⟩) none 5 6 idleService
    rfl
    (by
      intro s hs e he
      have he2 : s.syncResult = some e := he
      have hs2 : s = mkSynchroniser SyncSource.Settings "settings"
          SyncStatus.Idle := by simpa using hs
      rw [hs2] at he2
      exact absurd he2 (by simp [mkSynchroniser]))
    rfl
    (by simp)
    rfl).1
